import Mathlib

/-
Verification of the connection lifecycle of UnixSockTwoWayStream
(src/src/carriers/unix/UnixSockTwoWayStream.cpp).

The C++ class is embedded shallowly: the member fields become a record
StreamState, each method becomes a function from the state (plus an
environment describing the results of the operating-system calls it makes)
to a new state together with a record of its observable actions.  The code
is multi-threaded: the two places where a method re-reads a flag that a
concurrent thread may have changed (the wake loop of interrupt() reading
happy without the lock, and read() re-reading closed after the blocking
OS read) are modelled by an explicit observation oracle supplying the value
seen at each such read.  Blocking, sleeping and the waiter poll loop of
interrupt() have no state effect and are recorded only as event data
(sleep durations in milliseconds).
-/

set_option autoImplicit false

namespace UnixSock

/-- Delay in milliseconds between failed connect attempts in open
(source line 63: Time::delay(0.01)). -/
def connectRetryDelayMs : Nat := 10

/-- Delay in milliseconds after a wake attempt in interrupt while the object
is still happy (source line 157: delaySystem(0.25)). -/
def wakeRetryDelayMs : Nat := 250

/-- Delay in milliseconds of the waiter poll loop in interrupt
(source line 170: delaySystem(0.1)). -/
def waiterPollDelayMs : Nat := 100

/-- The member fields of one UnixSockTwoWayStream instance that the lifecycle
protocol reads or writes: the socket path, the role flag openedAsReader, the
two descriptors, the three mutex-guarded lifecycle flags, and the monitor
tap buffer (a byte list). -/
structure StreamState where
  socketPath : String
  openedAsReader : Bool
  reader_fd : Int
  sender_fd : Int
  closed : Bool
  interrupting : Bool
  happy : Bool
  monitor : List Int
deriving Repr, DecidableEq

/-- Modelled from the spec: the class header (UnixSockTwoWayStream.h, not under
src/) initializes a freshly constructed object holding only the socket name,
with both descriptors at the invalid sentinel -1, closed = false,
interrupting = false and the object marked usable (happy = true); the spec
states that close() is a no-op when the descriptor was never validly
established and that a successful open leaves happy = true, closed = false. -/
def initState (path : String) : StreamState :=
  { socketPath := path
    openedAsReader := false
    reader_fd := -1
    sender_fd := -1
    closed := false
    interrupting := false
    happy := true
    monitor := [] }

/-- The isOk() probe (source lines 246-249): returns the happy flag. -/
def isOk (s : StreamState) : Bool := s.happy

/-- Observable actions of one iteration of the wake loop in interrupt()
(source lines 145-158): the throwaway stream is constructed on tmpPath and
opened with sender = true, its reader_fd is repointed to writeFd before its
write, the written payload is recorded, the throwaway is flushed and closed,
and sleptMs is the sleep performed after the iteration (0 when none). -/
structure WakeAttempt where
  tmpPath : String
  tmpOpenSender : Bool
  writeFd : Int
  payload : List Int
  flushedTmp : Bool
  closedTmp : Bool
  sleptMs : Nat
deriving Repr, DecidableEq

/-- The wake loop of interrupt() (source lines 142-159): while happy and the
counter is positive, open a throwaway sender stream on the same path, repoint
its reader_fd to this object's sender_fd, write 10 zero bytes through it,
flush and close it, then sleep 250 ms if still happy.  The loop reads the
happy flag without holding the lock, so a concurrent thread may change it
between reads; happyAt n is the value seen at the n-th such read (the loop
guard at even indices, the sleep guard at odd indices).  The loop body never
writes this object's fields, so only the trace of attempts is produced. -/
def wakeAttempts (path : String) (senderFd : Int) (happyAt : Nat → Bool) :
    Nat → Nat → List WakeAttempt
  | 0, _ => []
  | ct + 1, t =>
    if happyAt t then
      { tmpPath := path
        tmpOpenSender := true
        writeFd := senderFd
        payload := List.replicate 10 0
        flushedTmp := true
        closedTmp := true
        sleptMs := if happyAt (t + 1) then wakeRetryDelayMs else 0 }
        :: wakeAttempts path senderFd happyAt ct (t + 2)
    else []

/-- Result of interrupt(): the new state, the trace of wake attempts, and
whether the caller became the actor. -/
structure InterruptOut where
  state : StreamState
  attempts : List WakeAttempt
  actor : Bool
deriving Repr

/-- interrupt() (source lines 129-174).  Under the mutex, if the object is
not closed, no interrupt is in flight and it is happy, the caller becomes
the actor: it sets interrupting and closed true in the same critical section
as the check, runs the wake loop when it opened as reader, and finally sets
interrupting back to false under the mutex.  Otherwise the caller writes
nothing: if interrupting is true it polls (sleeping 100 ms per iteration)
until the actor clears the flag — a wait on another thread with no state
effect of its own — and if the object was already closed or unhappy it
returns immediately. -/
def interrupt (s : StreamState) (happyAt : Nat → Bool) : InterruptOut :=
  if !s.closed && !s.interrupting && s.happy then
    { state := { s with closed := true, interrupting := false }
      attempts :=
        if s.openedAsReader then wakeAttempts s.socketPath s.sender_fd happyAt 3 0
        else []
      actor := true }
  else
    { state := s, attempts := [], actor := false }

/-- Result of close(): the new state, the wake attempts of the nested
interrupt() call, whether the guard reader_fd greater than 0 passed, and the
teardown system calls issued: the descriptor shut down and closed, and the
path unlinked (receiver only). -/
structure CloseOut where
  state : StreamState
  attempts : List WakeAttempt
  guardPassed : Bool
  shutdownFd : Option Int
  unlinked : Option String
deriving Repr

/-- Busy-wait of close() (source lines 184-187): while interrupting is still
set, force happy to false each iteration and sleep 100 ms.  The loop body
runs only while an external actor still holds interrupting — sequentially
the nested interrupt() call has already cleared it — and its only state
effect is happy := false. -/
def closeWait (s1 : StreamState) : StreamState :=
  if s1.interrupting then { s1 with happy := false } else s1

/-- Teardown section of close() under the mutex (source lines 188-203): the
reader shuts down and closes sender_fd, unlinks the path and marks sender_fd
with the sentinel -1; the sender shuts down and closes reader_fd and marks it
-1; both then set happy false. -/
def closeTeardown (s2 : StreamState) (atts : List WakeAttempt) : CloseOut :=
  if s2.openedAsReader then
    { state := { s2 with sender_fd := -1, happy := false }
      attempts := atts
      guardPassed := true
      shutdownFd := some s2.sender_fd
      unlinked := some s2.socketPath }
  else
    { state := { s2 with reader_fd := -1, happy := false }
      attempts := atts
      guardPassed := true
      shutdownFd := some s2.reader_fd
      unlinked := none }

/-- close() (source lines 176-206).  If reader_fd is greater than 0 it calls
interrupt(), sets closed under the mutex, runs the busy-wait (closeWait),
then performs the teardown (closeTeardown).  When the guard fails only the
unconditional happy := false of source line 205 happens. -/
def close (s : StreamState) (happyAt : Nat → Bool) : CloseOut :=
  if 0 < s.reader_fd then
    closeTeardown (closeWait { (interrupt s happyAt).state with closed := true })
      (interrupt s happyAt).attempts
  else
    { state := { s with happy := false }
      attempts := []
      guardPassed := false
      shutdownFd := none
      unlinked := none }

/-- Result of write(): the new state, the descriptor the OS write was
attempted on (none when the fail-fast branch returned before writing), and
whether close() was invoked. -/
structure WriteOut where
  state : StreamState
  wroteFd : Option Int
  closeCalled : Bool
  attempts : List WakeAttempt
deriving Repr

/-- write(b) (source lines 226-240).  If reader_fd is negative — the only
field the guard tests, for either role — it calls close() and returns.
Otherwise it performs one OS write on the role-appropriate descriptor
(reader: sender_fd, sender: reader_fd); osRes is the result returned by the
OS and timedOut tells whether errno was ETIMEDOUT when osRes is negative.  A
negative result calls close() unless the error was ETIMEDOUT, in which case
nothing happens.  The function returns no value and throws nothing. -/
def writeS (s : StreamState) (happyAt : Nat → Bool) (osRes : Int) (timedOut : Bool) :
    WriteOut :=
  if s.reader_fd < 0 then
    let c := close s happyAt
    { state := c.state, wroteFd := none, closeCalled := true, attempts := c.attempts }
  else
    let fd := if s.openedAsReader then s.sender_fd else s.reader_fd
    if osRes < 0 then
      if timedOut then
        { state := s, wroteFd := some fd, closeCalled := false, attempts := [] }
      else
        let c := close s happyAt
        { state := c.state, wroteFd := some fd, closeCalled := true, attempts := c.attempts }
    else
      { state := s, wroteFd := some fd, closeCalled := false, attempts := [] }

/-- Result of read(): the new state, the return value, and the descriptor the
blocking OS read was performed on (none when the fail-fast branch returned). -/
structure ReadOut where
  state : StreamState
  ret : Int
  fdRead : Option Int
deriving Repr

/-- read(b) (source lines 208-224).  Returns -1 at once if closed or not
happy.  Otherwise it performs one blocking OS read on the role-appropriate
descriptor (reader: sender_fd, sender: reader_fd); osRes is the byte count or
negative error the OS returns.  While the read blocks a concurrent thread may
set closed; closedAfter is the value of closed observed at the re-check on
source line 215 (closed is only ever set true concurrently, and it was false
at entry).  If closed is now set or the read returned 0 bytes, happy is set
false and -1 returned; a negative OS result returns -1 leaving happy alone;
otherwise the byte count is returned. -/
def readStep (s : StreamState) (closedAfter : Bool) (osRes : Int) : ReadOut :=
  if s.closed || !s.happy then
    { state := s, ret := -1, fdRead := none }
  else if closedAfter || osRes == 0 then
    { state := { s with closed := closedAfter, happy := false }, ret := -1,
      fdRead := some (if s.openedAsReader then s.sender_fd else s.reader_fd) }
  else if osRes < 0 then
    { state := { s with closed := closedAfter }, ret := -1,
      fdRead := some (if s.openedAsReader then s.sender_fd else s.reader_fd) }
  else
    { state := { s with closed := closedAfter }, ret := osRes,
      fdRead := some (if s.openedAsReader then s.sender_fd else s.reader_fd) }

/-- Results of the operating-system calls made by open(): the descriptor
returned by socket() (-1 on failure), whether the i-th connect() attempt
succeeds, whether bind() and listen() succeed, and the descriptor returned
by accept() (-1 on failure). -/
structure OpenEnv where
  socketRet : Int
  connectOk : Nat → Bool
  bindOk : Bool
  listenOk : Bool
  acceptRet : Int

/-- Result of open(): the new state, the boolean result, the number of
connect() calls made and of 10 ms sleeps performed (sender role), and whether
a stale filesystem entry was unlinked before binding (receiver role,
non-empty path). -/
structure OpenOut where
  state : StreamState
  ok : Bool
  connectCalls : Nat
  connectSleeps : Nat
  unlinkedStale : Bool
deriving Repr

/-- The sender connect loop of open() (source lines 56-65): while attempts is
below 5, call connect(); on success break without touching attempts, on
failure sleep 10 ms and increment attempts.  Returns the final value of
attempts, the number of connect calls and the number of sleeps.  fuel bounds
the recursion and is called with 5, enough for the guard to exhaust. -/
def connectLoop (ok : Nat → Bool) : Nat → Nat → Nat × Nat × Nat
  | 0, attempts => (attempts, 0, 0)
  | fuel + 1, attempts =>
    if attempts < 5 then
      if ok attempts then (attempts, 1, 0)
      else
        ((connectLoop ok fuel (attempts + 1)).1,
          (connectLoop ok fuel (attempts + 1)).2.1 + 1,
          (connectLoop ok fuel (attempts + 1)).2.2 + 1)
    else (attempts, 0, 0)

/-- open(sender) (source lines 33-92).  Records the role in openedAsReader,
stores the socket() result in reader_fd and fails if it is -1.  For a
non-empty path the receiver unlinks any stale entry.  The sender runs the
connect loop and fails exactly when the final attempts counter reached 5.
The receiver binds, listens, then accepts, storing the accepted descriptor
in sender_fd and failing when any of the three fails.  No lifecycle flag is
written. -/
def openS (s : StreamState) (sender : Bool) (env : OpenEnv) : OpenOut :=
  if env.socketRet == -1 then
    { state := { s with openedAsReader := !sender, reader_fd := env.socketRet }
      ok := false, connectCalls := 0, connectSleeps := 0, unlinkedStale := false }
  else if sender then
    { state := { s with openedAsReader := !sender, reader_fd := env.socketRet }
      ok := decide ((connectLoop env.connectOk 5 0).1 < 5)
      connectCalls := (connectLoop env.connectOk 5 0).2.1
      connectSleeps := (connectLoop env.connectOk 5 0).2.2
      unlinkedStale := false }
  else if !env.bindOk then
    { state := { s with openedAsReader := !sender, reader_fd := env.socketRet }
      ok := false, connectCalls := 0, connectSleeps := 0
      unlinkedStale := !sender && !s.socketPath.isEmpty }
  else if !env.listenOk then
    { state := { s with openedAsReader := !sender, reader_fd := env.socketRet }
      ok := false, connectCalls := 0, connectSleeps := 0
      unlinkedStale := !sender && !s.socketPath.isEmpty }
  else if env.acceptRet == -1 then
    { state :=
        { s with
            openedAsReader := !sender
            reader_fd := env.socketRet
            sender_fd := env.acceptRet }
      ok := false, connectCalls := 0, connectSleeps := 0
      unlinkedStale := !sender && !s.socketPath.isEmpty }
  else
    { state :=
        { s with
            openedAsReader := !sender
            reader_fd := env.socketRet
            sender_fd := env.acceptRet }
      ok := true, connectCalls := 0, connectSleeps := 0
      unlinkedStale := !sender && !s.socketPath.isEmpty }

/-- setMonitor(data) (source lines 268-272): deep-copies data into the
monitor buffer. -/
def setMonitor (s : StreamState) (data : List Int) : StreamState :=
  { s with monitor := data }

/-- getMonitor() (source lines 263-266): returns the monitor buffer. -/
def getMonitor (s : StreamState) : List Int := s.monitor

/-- removeMonitor() (source lines 274-277): clears the monitor buffer. -/
def removeMonitor (s : StreamState) : StreamState :=
  { s with monitor := [] }

/-- One call on the instance, with the environment data the call consumes. -/
inductive Op where
  | openOp (sender : Bool) (env : OpenEnv)
  | readOp (closedAfter : Bool) (osRes : Int)
  | writeOp (happyAt : Nat → Bool) (osRes : Int) (timedOut : Bool)
  | interruptOp (happyAt : Nat → Bool)
  | closeOp (happyAt : Nat → Bool)
  | isOkOp
  | setMonitorOp (data : List Int)
  | removeMonitorOp
  | getMonitorOp
  | flushOp
  | resetOp
  | beginPacketOp
  | endPacketOp

/-- State transition of one call.  isOk, getMonitor, flush, reset,
beginPacket and endPacket write no field (source lines 242-261). -/
def step (s : StreamState) : Op → StreamState
  | .openOp sender env => (openS s sender env).state
  | .readOp c r => (readStep s c r).state
  | .writeOp h r t => (writeS s h r t).state
  | .interruptOp h => (interrupt s h).state
  | .closeOp h => (close s h).state
  | .isOkOp => s
  | .setMonitorOp d => setMonitor s d
  | .removeMonitorOp => removeMonitor s
  | .getMonitorOp => s
  | .flushOp => s
  | .resetOp => s
  | .beginPacketOp => s
  | .endPacketOp => s

/-- State after a sequence of calls. -/
def run (s : StreamState) (ops : List Op) : StreamState :=
  ops.foldl step s

/-- Both branches of close() leave happy false: line 205 sets it
unconditionally and the teardown branch sets it as well. -/
theorem close_happy_false (s : StreamState) (h : Nat → Bool) :
    (close s h).state.happy = false := by
  unfold close closeTeardown
  split
  · split <;> rfl
  · rfl

/-- C1: a caller of interrupt() becomes the actor exactly when, under the
mutex, closed is false, interrupting is false and happy is true; the actor
leaves the state with closed set true and interrupting back at false (the
setting of both flags is in the same critical section as the check); a
caller finding the object already closed or unhappy with no interrupt in
flight returns with every flag and descriptor unchanged. -/
theorem interrupt_actor_spec (s : StreamState) (happyAt : Nat → Bool) :
    ((interrupt s happyAt).actor = true ↔
      s.closed = false ∧ s.interrupting = false ∧ s.happy = true) ∧
    ((interrupt s happyAt).actor = true →
      (interrupt s happyAt).state = { s with closed := true, interrupting := false }) ∧
    ((s.closed = true ∨ s.happy = false) → s.interrupting = false →
      (interrupt s happyAt).state = s ∧ (interrupt s happyAt).attempts = [] ∧
        (interrupt s happyAt).actor = false) := by
  obtain ⟨path, role, rfd, sfd, c, i, hp, m⟩ := s
  unfold interrupt
  cases c <;> cases i <;> cases hp <;> simp

/-- Closed instantiation of interrupt_actor_spec: on a happy open receiver
the caller becomes the actor and the state afterwards has closed true and
interrupting false. -/
theorem interrupt_actor_spec_witness :
    (interrupt ⟨"/tmp/x.sock", true, 4, 5, false, false, true, []⟩ (fun _ => true)).actor
        = true ∧
    (interrupt ⟨"/tmp/x.sock", true, 4, 5, false, false, true, []⟩ (fun _ => true)).state
        = ⟨"/tmp/x.sock", true, 4, 5, true, false, true, []⟩ := by
  refine ⟨?_, ?_⟩
  · exact (interrupt_actor_spec ⟨"/tmp/x.sock", true, 4, 5, false, false, true, []⟩
      (fun _ => true)).1.mpr ⟨rfl, rfl, rfl⟩
  · exact (interrupt_actor_spec ⟨"/tmp/x.sock", true, 4, 5, false, false, true, []⟩
      (fun _ => true)).2.1 rfl

/-- C6: read() returns -1 at once, changing nothing, when the object is
closed or unhappy; otherwise the blocking OS read targets sender_fd for the
reader role and reader_fd for the sender role; a zero-byte result (here with
no concurrent close observed) sets happy false and returns -1; a negative OS
result returns -1 with happy untouched. -/
theorem read_branch_spec (s : StreamState) (closedAfter : Bool) (osRes : Int) :
    (s.closed = true ∨ s.happy = false →
      (readStep s closedAfter osRes).ret = -1 ∧
      (readStep s closedAfter osRes).state = s ∧
      (readStep s closedAfter osRes).fdRead = none) ∧
    (s.closed = false → s.happy = true →
      (readStep s closedAfter osRes).fdRead =
        some (if s.openedAsReader then s.sender_fd else s.reader_fd)) ∧
    (s.closed = false → s.happy = true → osRes = 0 →
      (readStep s closedAfter osRes).ret = -1 ∧
      (readStep s closedAfter osRes).state.happy = false) ∧
    (s.closed = false → s.happy = true → closedAfter = false → osRes < 0 →
      (readStep s closedAfter osRes).ret = -1 ∧
      (readStep s closedAfter osRes).state.happy = s.happy) := by
  refine ⟨?_, ?_, ?_, ?_⟩
  · intro h
    have hg : (s.closed || !s.happy) = true := by
      rcases h with h | h <;> simp [h]
    simp [readStep, hg]
  · intro hc hh
    have hg : (s.closed || !s.happy) = false := by simp [hc, hh]
    simp only [readStep, hg]
    split_ifs <;> simp_all
  · intro hc hh hz
    subst hz
    simp [readStep, hc, hh]
  · intro hc hh hca hr
    have hz : ¬(osRes == 0) = true := by
      simp only [beq_iff_eq]
      omega
    subst hca
    simp [readStep, hc, hh, hz, hr]

/-- Closed instantiation of read_branch_spec: on an open happy sender-role
state a read error (-1 from the OS, no concurrent close) returns -1 and
leaves happy true. -/
theorem read_branch_spec_witness :
    (readStep ⟨"/tmp/x.sock", false, 4, -1, false, false, true, []⟩ false (-1)).ret = -1 ∧
    (readStep ⟨"/tmp/x.sock", false, 4, -1, false, false, true, []⟩ false (-1)).state.happy
      = (⟨"/tmp/x.sock", false, 4, -1, false, false, true, []⟩ : StreamState).happy :=
  (read_branch_spec ⟨"/tmp/x.sock", false, 4, -1, false, false, true, []⟩ false
    (-1)).2.2.2 rfl rfl rfl (by decide)

/-- C9: when the OS read returns a positive byte count but a concurrent
interrupt() or close() has set closed while the read was blocked, read()
sets happy false and returns -1, so the received bytes — including the
10-byte wake payload — are never delivered to the caller. -/
theorem read_after_close_discards (s : StreamState) (osRes : Int)
    (hc : s.closed = false) (hh : s.happy = true) (_hr : 0 < osRes) :
    (readStep s true osRes).ret = -1 ∧ (readStep s true osRes).state.happy = false := by
  simp [readStep, hc, hh]

/-- Closed instantiation of read_after_close_discards: a 10-byte arrival on
a reader whose closed flag was set during the block is discarded. -/
theorem read_after_close_discards_witness :
    (readStep ⟨"/tmp/x.sock", true, 4, 5, false, false, true, []⟩ true 10).ret = -1 ∧
    (readStep ⟨"/tmp/x.sock", true, 4, 5, false, false, true, []⟩ true 10).state.happy
      = false :=
  read_after_close_discards ⟨"/tmp/x.sock", true, 4, 5, false, false, true, []⟩ 10
    rfl rfl (by decide)

/-- C7: when the OS write fails, write() calls close() — leaving isOk()
false — unless errno was ETIMEDOUT, in which case no close happens, the
state (happy included) is unchanged and the failed write is dropped; write
returns no value and raises nothing in either case (it is a total function
of the state). -/
theorem write_error_spec (s : StreamState) (happyAt : Nat → Bool) (osRes : Int)
    (timedOut : Bool) (hfd : 0 ≤ s.reader_fd) (hres : osRes < 0) :
    (timedOut = false →
      (writeS s happyAt osRes timedOut).closeCalled = true ∧
      isOk (writeS s happyAt osRes timedOut).state = false) ∧
    (timedOut = true →
      (writeS s happyAt osRes timedOut).closeCalled = false ∧
      (writeS s happyAt osRes timedOut).state = s ∧
      isOk (writeS s happyAt osRes timedOut).state = isOk s) := by
  have hg : ¬s.reader_fd < 0 := by omega
  refine ⟨?_, ?_⟩
  · intro ht
    subst ht
    simp [writeS, hg, hres, isOk, close_happy_false]
  · intro ht
    subst ht
    simp [writeS, hg, hres]

/-- Closed instantiation of write_error_spec at a happy open sender state:
a timeout-class failure leaves the state unchanged with isOk still true,
while any other failure calls close and isOk becomes false. -/
theorem write_error_spec_witness :
    ((writeS ⟨"/tmp/x.sock", false, 4, -1, false, false, true, []⟩ (fun _ => true)
        (-1) false).closeCalled = true ∧
      isOk (writeS ⟨"/tmp/x.sock", false, 4, -1, false, false, true, []⟩ (fun _ => true)
        (-1) false).state = false) ∧
    ((writeS ⟨"/tmp/x.sock", false, 4, -1, false, false, true, []⟩ (fun _ => true)
        (-1) true).closeCalled = false ∧
      (writeS ⟨"/tmp/x.sock", false, 4, -1, false, false, true, []⟩ (fun _ => true)
        (-1) true).state = ⟨"/tmp/x.sock", false, 4, -1, false, false, true, []⟩ ∧
      isOk (writeS ⟨"/tmp/x.sock", false, 4, -1, false, false, true, []⟩ (fun _ => true)
        (-1) true).state
        = isOk ⟨"/tmp/x.sock", false, 4, -1, false, false, true, []⟩) :=
  ⟨(write_error_spec ⟨"/tmp/x.sock", false, 4, -1, false, false, true, []⟩ (fun _ => true)
      (-1) false (by decide) (by decide)).1 rfl,
    (write_error_spec ⟨"/tmp/x.sock", false, 4, -1, false, false, true, []⟩ (fun _ => true)
      (-1) true (by decide) (by decide)).2 rfl⟩

/-- C10: the fail-fast guard of write() tests only reader_fd, for either
role: a receiver whose reader_fd is still valid attempts the OS write on
sender_fd whatever its value, including the invalid sentinel -1. -/
theorem write_guard_tests_reader_fd (s : StreamState) (happyAt : Nat → Bool)
    (osRes : Int) (timedOut : Bool) (hrole : s.openedAsReader = true)
    (hfd : 0 ≤ s.reader_fd) :
    (writeS s happyAt osRes timedOut).wroteFd = some s.sender_fd := by
  have hg : ¬s.reader_fd < 0 := by omega
  unfold writeS
  simp only [hg, if_false, hrole, if_true]
  split
  · split <;> rfl
  · rfl

/-- Closed instantiation of write_guard_tests_reader_fd: a receiver with
sender_fd already -1 but reader_fd still 4 skips the close-and-return branch
and attempts the OS write on descriptor -1. -/
theorem write_guard_tests_reader_fd_witness :
    (writeS ⟨"/tmp/x.sock", true, 4, -1, true, false, false, []⟩ (fun _ => true)
        5 false).wroteFd = some (-1) :=
  write_guard_tests_reader_fd ⟨"/tmp/x.sock", true, 4, -1, true, false, false, []⟩
    (fun _ => true) 5 false rfl (by decide)

/-- The wake loop never produces more iterations than its counter. -/
theorem wakeAttempts_length_le (p : String) (fd : Int) (h : Nat → Bool) :
    ∀ (ct t : Nat), (wakeAttempts p fd h ct t).length ≤ ct := by
  intro ct
  induction ct with
  | zero => intro t; simp [wakeAttempts]
  | succ n ih =>
    intro t
    unfold wakeAttempts
    split
    · simpa using Nat.succ_le_succ (ih (t + 2))
    · simp

/-- Every iteration of the wake loop opens a sender-role throwaway on the
same path, repoints its write descriptor to the given peer descriptor, writes
the 10 zero bytes, flushes and closes the throwaway. -/
theorem wakeAttempts_mem (p : String) (fd : Int) (h : Nat → Bool) :
    ∀ (ct t : Nat) (a : WakeAttempt), a ∈ wakeAttempts p fd h ct t →
      a.tmpPath = p ∧ a.tmpOpenSender = true ∧ a.writeFd = fd ∧
      a.payload = List.replicate 10 0 ∧ a.flushedTmp = true ∧ a.closedTmp = true := by
  intro ct
  induction ct with
  | zero => intro t a ha; simp [wakeAttempts] at ha
  | succ n ih =>
    intro t a ha
    unfold wakeAttempts at ha
    split at ha
    · rcases List.mem_cons.mp ha with rfl | hm
      · exact ⟨rfl, rfl, rfl, rfl, rfl, rfl⟩
      · exact ih (t + 2) a hm
    · simp at ha

/-- The i-th iteration of the wake loop exists only when the loop guard saw
happy true at its reading of the flag (index t + 2i of the oracle). -/
theorem wakeAttempts_guard (p : String) (fd : Int) (h : Nat → Bool) :
    ∀ (ct t i : Nat), i < (wakeAttempts p fd h ct t).length → h (t + 2 * i) = true := by
  intro ct
  induction ct with
  | zero => intro t i hi; simp [wakeAttempts] at hi
  | succ n ih =>
    intro t i hi
    by_cases hht : h t = true
    · cases i with
      | zero => simpa using hht
      | succ j =>
        have hj : j < (wakeAttempts p fd h n (t + 2)).length := by
          simp only [wakeAttempts, hht, if_true, List.length_cons] at hi
          omega
        have hrec := ih (t + 2) j hj
        rw [show t + 2 * (j + 1) = t + 2 + 2 * j by ring]
        exact hrec
    · simp [wakeAttempts, hht] at hi

/-- The i-th iteration of the wake loop sleeps 250 ms exactly when the
sleep guard saw happy true (index t + 2i + 1 of the oracle). -/
theorem wakeAttempts_slept (p : String) (fd : Int) (h : Nat → Bool) :
    ∀ (ct t i : Nat), i < (wakeAttempts p fd h ct t).length →
      ((wakeAttempts p fd h ct t).map WakeAttempt.sleptMs).getD i 0 =
        if h (t + 2 * i + 1) then wakeRetryDelayMs else 0 := by
  intro ct
  induction ct with
  | zero => intro t i hi; simp [wakeAttempts] at hi
  | succ n ih =>
    intro t i hi
    by_cases hht : h t = true
    · cases i with
      | zero => simp [wakeAttempts, hht]
      | succ j =>
        have hj : j < (wakeAttempts p fd h n (t + 2)).length := by
          simp only [wakeAttempts, hht, if_true, List.length_cons] at hi
          omega
        have hrec := ih (t + 2) j hj
        simp only [wakeAttempts, hht, if_true, List.map_cons, List.getD_cons_succ]
        rw [show t + 2 * (j + 1) + 1 = t + 2 + 2 * j + 1 by ring]
        exact hrec
    · simp [wakeAttempts, hht] at hi

/-- The trace of wake attempts produced by interrupt(): non-empty only when
the caller became the actor on a reader-role instance. -/
theorem interrupt_attempts_eq (s : StreamState) (happyAt : Nat → Bool) :
    (interrupt s happyAt).attempts =
      if (!s.closed && !s.interrupting && s.happy) && s.openedAsReader then
        wakeAttempts s.socketPath s.sender_fd happyAt 3 0
      else [] := by
  obtain ⟨p, role, rfd, sfd, c, i, hp, m⟩ := s
  cases role <;> cases c <;> cases i <;> cases hp <;> rfl

/-- C4: the unblock sequence runs only for a reader-role actor — for the
sender role interrupt() produces no wake attempt — and performs at most 3
iterations; every iteration opens a throwaway sender-role instance on the
same socket name, repoints its outbound descriptor to this object's accepted
peer descriptor sender_fd, writes the 10-byte all-zero payload through it,
flushes and closes it; an iteration starts only when the loop saw happy still
true, and the 250 ms sleep after an iteration happens exactly when happy was
still observed true. -/
theorem interrupt_wake_spec (s : StreamState) (happyAt : Nat → Bool) :
    (s.openedAsReader = false → (interrupt s happyAt).attempts = []) ∧
    (interrupt s happyAt).attempts.length ≤ 3 ∧
    (∀ a ∈ (interrupt s happyAt).attempts,
      a.tmpPath = s.socketPath ∧ a.tmpOpenSender = true ∧ a.writeFd = s.sender_fd ∧
      a.payload = List.replicate 10 0 ∧ a.flushedTmp = true ∧ a.closedTmp = true) ∧
    (∀ i, i < (interrupt s happyAt).attempts.length → happyAt (2 * i) = true) ∧
    (∀ i, i < (interrupt s happyAt).attempts.length →
      ((interrupt s happyAt).attempts.map WakeAttempt.sleptMs).getD i 0 =
        if happyAt (2 * i + 1) then wakeRetryDelayMs else 0) := by
  rw [interrupt_attempts_eq]
  by_cases hcond :
      ((!s.closed && !s.interrupting && s.happy) && s.openedAsReader) = true
  · rw [if_pos hcond]
    refine ⟨?_, ?_, ?_, ?_, ?_⟩
    · intro hro
      have : s.openedAsReader = true := by
        have := hcond
        simp only [Bool.and_eq_true] at this
        exact this.2
      rw [hro] at this
      cases this
    · exact wakeAttempts_length_le _ _ _ 3 0
    · intro a ha; exact wakeAttempts_mem _ _ _ 3 0 a ha
    · intro i hi; simpa using wakeAttempts_guard _ _ _ 3 0 i hi
    · intro i hi; simpa using wakeAttempts_slept _ _ _ 3 0 i hi
  · rw [if_neg hcond]
    simp

/-- Closed instantiation of interrupt_wake_spec on a happy open reader with
happy observed true throughout: at most 3 attempts, the first attempt sleeps
250 ms, and the loop guard of the first attempt saw happy true. -/
theorem interrupt_wake_spec_witness :
    (interrupt ⟨"/tmp/w.sock", true, 4, 5, false, false, true, []⟩
        (fun _ => true)).attempts.length ≤ 3 ∧
    (fun _ : Nat => true) (2 * 0) = true ∧
    ((interrupt ⟨"/tmp/w.sock", true, 4, 5, false, false, true, []⟩
        (fun _ => true)).attempts.map WakeAttempt.sleptMs).getD 0 0 =
      (if (fun _ : Nat => true) (2 * 0 + 1) then wakeRetryDelayMs else 0) :=
  ⟨(interrupt_wake_spec ⟨"/tmp/w.sock", true, 4, 5, false, false, true, []⟩
      (fun _ => true)).2.1,
    (interrupt_wake_spec ⟨"/tmp/w.sock", true, 4, 5, false, false, true, []⟩
      (fun _ => true)).2.2.2.1 0 (by decide),
    (interrupt_wake_spec ⟨"/tmp/w.sock", true, 4, 5, false, false, true, []⟩
      (fun _ => true)).2.2.2.2 0 (by decide)⟩

/-- The connect loop never performs more connect calls than it has fuel. -/
theorem connectLoop_calls_le (ok : Nat → Bool) :
    ∀ (fuel a : Nat), (connectLoop ok fuel a).2.1 ≤ fuel := by
  intro fuel
  induction fuel with
  | zero => intro a; simp [connectLoop]
  | succ n ih =>
    intro a
    unfold connectLoop
    split
    · split
      · simp
      · simpa using Nat.succ_le_succ (ih (a + 1))
    · simp

/-- When every attempt in range fails, the connect loop exhausts the
budget: the attempts counter reaches 5 after 5 - a calls and as many
sleeps. -/
theorem connectLoop_all_fail (ok : Nat → Bool) :
    ∀ (fuel a : Nat), a ≤ 5 → 5 ≤ a + fuel →
      (∀ i, a ≤ i → i < 5 → ok i = false) →
      connectLoop ok fuel a = (5, 5 - a, 5 - a) := by
  intro fuel
  induction fuel with
  | zero =>
    intro a h1 h2 _
    have ha : a = 5 := by omega
    subst ha
    simp [connectLoop]
  | succ n ih =>
    intro a h1 h2 hfail
    unfold connectLoop
    split
    · have hoka : ok a = false := hfail a le_rfl (by omega)
      rw [if_neg (by simp [hoka])]
      rw [ih (a + 1) (by omega) (by omega) (fun i hi1 hi2 => hfail i (by omega) hi2)]
      dsimp only
      simp only [Prod.mk.injEq]
      exact ⟨trivial, by omega, by omega⟩
    · have ha : a = 5 := by omega
      subst ha
      simp

/-- When the first success in range is at attempt k, the connect loop stops
there: k + 1 - a connect calls, k - a sleeps, final counter k. -/
theorem connectLoop_first_success (ok : Nat → Bool) :
    ∀ (fuel a k : Nat), a ≤ k → k < 5 → k < a + fuel → ok k = true →
      (∀ i, a ≤ i → i < k → ok i = false) →
      connectLoop ok fuel a = (k, k + 1 - a, k - a) := by
  intro fuel
  induction fuel with
  | zero => intro a k h1 _ h3 _ _; omega
  | succ n ih =>
    intro a k h1 h2 h3 hok hfail
    unfold connectLoop
    rw [if_pos (show a < 5 by omega)]
    by_cases hak : a = k
    · subst hak
      rw [if_pos hok]
      simp only [Prod.mk.injEq]
      exact ⟨trivial, by omega, by omega⟩
    · have hoka : ok a = false := hfail a le_rfl (by omega)
      rw [if_neg (by simp [hoka])]
      rw [ih (a + 1) k (by omega) h2 (by omega) hok (fun i p q => hfail i (by omega) q)]
      dsimp only
      simp only [Prod.mk.injEq]
      exact ⟨trivial, by omega, by omega⟩

/-- Reduction of open() for the sender role once socket creation
succeeded: the result is determined by the connect loop. -/
theorem openS_sender (s : StreamState) (env : OpenEnv) (hsock : env.socketRet ≠ -1) :
    openS s true env =
      { state := { s with openedAsReader := false, reader_fd := env.socketRet }
        ok := decide ((connectLoop env.connectOk 5 0).1 < 5)
        connectCalls := (connectLoop env.connectOk 5 0).2.1
        connectSleeps := (connectLoop env.connectOk 5 0).2.2
        unlinkedStale := false } := by
  have hs : (env.socketRet == -1) = false := by simpa using hsock
  simp [openS, hs]

/-- C8: for the sender role (once socket creation succeeded) open() makes at
most 5 connect calls, each failed call is followed by one 10 ms sleep (the
sleep count equals the failed-call count), the loop stops at the first
successful attempt - k failures then success gives k + 1 calls and k
sleeps - and open() returns false exactly when all 5 attempts fail, in
which case 5 calls and 5 sleeps were made. -/
theorem open_sender_connect_spec (s : StreamState) (env : OpenEnv)
    (hsock : env.socketRet ≠ -1) :
    connectRetryDelayMs = 10 ∧
    (openS s true env).connectCalls ≤ 5 ∧
    ((openS s true env).ok = false ↔ ∀ i, i < 5 → env.connectOk i = false) ∧
    (∀ k, k < 5 → env.connectOk k = true → (∀ j, j < k → env.connectOk j = false) →
      (openS s true env).connectCalls = k + 1 ∧ (openS s true env).connectSleeps = k) ∧
    ((∀ i, i < 5 → env.connectOk i = false) →
      (openS s true env).connectCalls = 5 ∧ (openS s true env).connectSleeps = 5) := by
  rw [openS_sender s env hsock]
  refine ⟨rfl, ?_, ?_, ?_, ?_⟩
  · exact connectLoop_calls_le env.connectOk 5 0
  · dsimp only
    constructor
    · intro hfalse
      by_contra hnot
      push_neg at hnot
      obtain ⟨i, hi5, hoki⟩ := hnot
      have hex : ∃ j, j < 5 ∧ env.connectOk j = true := by
        refine ⟨i, hi5, ?_⟩
        cases hcase : env.connectOk i
        · exact absurd hcase hoki
        · rfl
      classical
      have hk := Nat.find_spec hex
      set k := Nat.find hex with hkdef
      have hmin : ∀ j, j < k → ¬(j < 5 ∧ env.connectOk j = true) :=
        fun j hj => Nat.find_min hex hj
      have hrun := connectLoop_first_success env.connectOk 5 0 k (Nat.zero_le k)
        hk.1 (by omega) hk.2
        (fun j _ hjk => by
          have := hmin j hjk
          cases hcase : env.connectOk j
          · rfl
          · exact absurd ⟨by omega, hcase⟩ this)
      rw [hrun] at hfalse
      simp at hfalse
      omega
    · intro hall
      rw [connectLoop_all_fail env.connectOk 5 0 (by omega) (by omega)
        (fun i _ hi => hall i hi)]
      simp
  · intro k hk5 hokk hbefore
    dsimp only
    rw [connectLoop_first_success env.connectOk 5 0 k (Nat.zero_le k) hk5 (by omega)
      hokk (fun i _ hik => hbefore i hik)]
    dsimp only
    exact ⟨by omega, by omega⟩
  · intro hall
    dsimp only
    rw [connectLoop_all_fail env.connectOk 5 0 (by omega) (by omega)
      (fun i _ hi => hall i hi)]
    simp

/-- Closed instantiation of open_sender_connect_spec with the first connect
success on the third attempt: 3 connect calls and 2 sleeps, and with an
always-failing peer: open returns false after 5 calls and 5 sleeps. -/
theorem open_sender_connect_spec_witness :
    ((openS (initState "/tmp/c.sock") true
        ⟨3, fun i => i == 2, true, true, -1⟩).connectCalls = 2 + 1 ∧
      (openS (initState "/tmp/c.sock") true
        ⟨3, fun i => i == 2, true, true, -1⟩).connectSleeps = 2) ∧
    (openS (initState "/tmp/c.sock") true
        ⟨3, fun _ => false, true, true, -1⟩).ok = false :=
  ⟨(open_sender_connect_spec (initState "/tmp/c.sock")
      ⟨3, fun i => i == 2, true, true, -1⟩ (by decide)).2.2.2.1 2 (by decide)
      (by decide) (by decide),
    (open_sender_connect_spec (initState "/tmp/c.sock")
      ⟨3, fun _ => false, true, true, -1⟩ (by decide)).2.2.1.mpr
      (fun i _ => rfl)⟩

/-- open() writes only the role field and the descriptors: happy and closed
pass through unchanged, and the stored role is the negation of the sender
argument. -/
theorem openS_preserves_flags (s : StreamState) (b : Bool) (env : OpenEnv) :
    (openS s b env).state.happy = s.happy ∧ (openS s b env).state.closed = s.closed ∧
    (openS s b env).state.openedAsReader = !b := by
  unfold openS
  split_ifs <;> exact ⟨rfl, rfl, rfl⟩

/-- When the object is already closed, close() leaves closed set. -/
theorem close_closed_mono (s : StreamState) (h : Nat → Bool) (hc : s.closed = true) :
    (close s h).state.closed = true := by
  obtain ⟨p, role, rfd, sfd, c, i, hp, m⟩ := s
  have hc2 : c = true := hc
  subst hc2
  have hneg : ¬((0 : Int) < -1) := by decide
  by_cases hr : (0 : Int) < rfd <;>
    cases role <;> cases i <;> cases hp <;>
      simp [close, closeTeardown, closeWait, interrupt, hr, hneg]

/-- Every single operation preserves happy = false and closed = true. -/
theorem step_monotone (s : StreamState) (op : Op) :
    (s.happy = false → (step s op).happy = false) ∧
    (s.closed = true → (step s op).closed = true) := by
  cases op with
  | openOp sender env =>
    constructor
    · intro hh
      rw [show (step s (Op.openOp sender env)).happy = s.happy from
        (openS_preserves_flags s sender env).1]
      exact hh
    · intro hc
      rw [show (step s (Op.openOp sender env)).closed = s.closed from
        (openS_preserves_flags s sender env).2.1]
      exact hc
  | readOp c r =>
    constructor
    · intro hh
      simp [step, readStep, hh]
    · intro hc
      simp [step, readStep, hc]
  | writeOp h r t =>
    constructor
    · intro hh
      simp only [step]
      unfold writeS
      split_ifs <;> first | exact close_happy_false _ _ | exact hh
    · intro hc
      simp only [step]
      unfold writeS
      split_ifs <;> first | exact close_closed_mono _ _ hc | exact hc
  | interruptOp h =>
    constructor
    · intro hh
      simp only [step]
      unfold interrupt
      split
      · exact hh
      · exact hh
    · intro hc
      simp only [step]
      unfold interrupt
      split
      · rfl
      · exact hc
  | closeOp h =>
    exact ⟨fun _ => close_happy_false s h, fun hc => close_closed_mono s h hc⟩
  | isOkOp => exact ⟨fun h => h, fun h => h⟩
  | setMonitorOp d => exact ⟨fun h => h, fun h => h⟩
  | removeMonitorOp => exact ⟨fun h => h, fun h => h⟩
  | getMonitorOp => exact ⟨fun h => h, fun h => h⟩
  | flushOp => exact ⟨fun h => h, fun h => h⟩
  | resetOp => exact ⟨fun h => h, fun h => h⟩
  | beginPacketOp => exact ⟨fun h => h, fun h => h⟩
  | endPacketOp => exact ⟨fun h => h, fun h => h⟩

/-- Sequences of operations preserve happy = false and closed = true. -/
theorem run_monotone (ops : List Op) :
    ∀ s : StreamState, (s.happy = false → (run s ops).happy = false) ∧
      (s.closed = true → (run s ops).closed = true) := by
  induction ops with
  | nil => intro s; exact ⟨fun h => h, fun h => h⟩
  | cons op rest ih =>
    intro s
    constructor
    · intro hh
      exact (ih (step s op)).1 ((step_monotone s op).1 hh)
    · intro hc
      exact (ih (step s op)).2 ((step_monotone s op).2 hc)

/-- C3: across every sequence of operations on one instance, the happy flag
never goes from false back to true and the closed flag never goes from true
back to false: a single step ending happy implies it started happy, a single
step ending not-closed implies it started not-closed, and once happy is
false (or closed is true) it stays so through any further sequence of
calls. -/
theorem flags_monotone_spec (s : StreamState) (op : Op) (ops : List Op) :
    ((step s op).happy = true → s.happy = true) ∧
    ((step s op).closed = false → s.closed = false) ∧
    (s.happy = false → (run s ops).happy = false) ∧
    (s.closed = true → (run s ops).closed = true) := by
  refine ⟨?_, ?_, (run_monotone ops s).1, (run_monotone ops s).2⟩
  · intro h
    cases hs : s.happy
    · rw [(step_monotone s op).1 hs] at h
      cases h
    · rfl
  · intro h
    cases hs : s.closed
    · rfl
    · rw [(step_monotone s op).2 hs] at h
      cases h

/-- Closed instantiation of flags_monotone_spec: an unhappy closed instance
stays unhappy and closed across a close followed by a monitor update. -/
theorem flags_monotone_spec_witness :
    (run ⟨"/tmp/m.sock", false, -1, -1, true, false, false, []⟩
        [Op.closeOp (fun _ => true), Op.setMonitorOp [1, 2]]).happy = false ∧
    (run ⟨"/tmp/m.sock", false, -1, -1, true, false, false, []⟩
        [Op.closeOp (fun _ => true), Op.setMonitorOp [1, 2]]).closed = true :=
  ⟨(flags_monotone_spec ⟨"/tmp/m.sock", false, -1, -1, true, false, false, []⟩
      Op.isOkOp [Op.closeOp (fun _ => true), Op.setMonitorOp [1, 2]]).2.2.1 rfl,
    (flags_monotone_spec ⟨"/tmp/m.sock", false, -1, -1, true, false, false, []⟩
      Op.isOkOp [Op.closeOp (fun _ => true), Op.setMonitorOp [1, 2]]).2.2.2 rfl⟩

/-- Counterexample to C5 as stated: a successful open() does not re-mark the
object usable.  Closing a fresh instance leaves happy = false (source line
205); a subsequent open() as sender that succeeds (socket 3, first connect
attempt succeeds) returns true yet happy is still false, because open()
never writes happy or closed — their usable values are only the
constructor's initializers. -/
theorem open_after_close_counterexample :
    (openS (close (initState "/tmp/r.sock") (fun _ => true)).state true
        ⟨3, fun _ => true, true, true, 7⟩).ok = true ∧
    (openS (close (initState "/tmp/r.sock") (fun _ => true)).state true
        ⟨3, fun _ => true, true, true, 7⟩).state.happy = false := by
  constructor <;> rfl

/-- C5 (amended): open() leaves happy and closed exactly as they were and
stores the role as the negation of the sender argument; on a freshly
constructed instance — whose initializers are happy = true, closed =
false — a successful open() therefore leaves the object with happy = true,
closed = false and the requested role. -/
theorem open_marks_usable_amended (s : StreamState) (p : String) (b : Bool)
    (env : OpenEnv) :
    (openS s b env).state.happy = s.happy ∧
    (openS s b env).state.closed = s.closed ∧
    (openS s b env).state.openedAsReader = !b ∧
    ((openS (initState p) b env).ok = true →
      (openS (initState p) b env).state.happy = true ∧
      (openS (initState p) b env).state.closed = false ∧
      (openS (initState p) b env).state.openedAsReader = !b) := by
  refine ⟨(openS_preserves_flags s b env).1, (openS_preserves_flags s b env).2.1,
    (openS_preserves_flags s b env).2.2, ?_⟩
  intro _
  exact ⟨(openS_preserves_flags (initState p) b env).1,
    (openS_preserves_flags (initState p) b env).2.1,
    (openS_preserves_flags (initState p) b env).2.2⟩

/-- Closed instantiation of open_marks_usable_amended: a fresh receiver-role
open() that succeeds leaves happy = true, closed = false and the receiver
role stored. -/
theorem open_marks_usable_amended_witness :
    (openS (initState "/tmp/u.sock") false ⟨3, fun _ => false, true, true, 7⟩).ok
        = true ∧
    (openS (initState "/tmp/u.sock") false ⟨3, fun _ => false, true, true, 7⟩).state.happy
        = true ∧
    (openS (initState "/tmp/u.sock") false ⟨3, fun _ => false, true, true, 7⟩).state.closed
        = false ∧
    (openS (initState "/tmp/u.sock") false
        ⟨3, fun _ => false, true, true, 7⟩).state.openedAsReader = !false :=
  ⟨rfl,
    (open_marks_usable_amended (initState "/tmp/u.sock") "/tmp/u.sock" false
      ⟨3, fun _ => false, true, true, 7⟩).2.2.2 rfl⟩

/-- Counterexample to C2 as stated: for the Receiver role the
descriptor-validity guard does not fail on the second close() call.  On a
receiver with reader_fd = 4, sender_fd = 5, the first close() invalidates
sender_fd but the guard tests reader_fd, which is left at 4, so the second
call passes the guard and re-runs the teardown. -/
theorem close_second_guard_passes_for_receiver :
    (close (close ⟨"/tmp/g.sock", true, 4, 5, false, false, true, []⟩
        (fun _ => false)).state (fun _ => false)).guardPassed = true ∧
    (close ⟨"/tmp/g.sock", true, 4, 5, false, false, true, []⟩
        (fun _ => false)).state.reader_fd = 4 := by
  constructor <;> rfl

/-- C2 (amended): close() is state-idempotent — a second close() leaves
every field exactly as the first left it and performs no wake attempt — and
for the Sender role the guard does fail on the second call because close()
set the checked reader_fd to the sentinel -1; for the Receiver role, which
invalidates sender_fd instead, the guard still passes on the second call
(the teardown system calls are re-issued on the already-invalid descriptor,
with no field change). -/
theorem close_idempotent_amended (s : StreamState) (h1 h2 : Nat → Bool) :
    (close (close s h1).state h2).state = (close s h1).state ∧
    (close (close s h1).state h2).attempts = [] ∧
    (s.openedAsReader = false → (close (close s h1).state h2).guardPassed = false) ∧
    (s.openedAsReader = true → 0 < s.reader_fd →
      (close (close s h1).state h2).guardPassed = true) := by
  obtain ⟨p, role, rfd, sfd, c, i, hp, m⟩ := s
  have hneg : ¬((0 : Int) < -1) := by decide
  by_cases hr : (0 : Int) < rfd <;>
    cases role <;> cases c <;> cases i <;> cases hp <;>
      simp [close, closeTeardown, closeWait, interrupt, hr, hneg]

/-- Closed instantiation of close_idempotent_amended on a sender: the second
close() fails the guard and changes nothing. -/
theorem close_idempotent_amended_witness :
    (close (close ⟨"/tmp/i.sock", false, 4, -1, false, false, true, []⟩
        (fun _ => true)).state (fun _ => true)).guardPassed = false ∧
    (close (close ⟨"/tmp/i.sock", false, 4, -1, false, false, true, []⟩
        (fun _ => true)).state (fun _ => true)).state =
      (close ⟨"/tmp/i.sock", false, 4, -1, false, false, true, []⟩
        (fun _ => true)).state :=
  ⟨(close_idempotent_amended ⟨"/tmp/i.sock", false, 4, -1, false, false, true, []⟩
      (fun _ => true) (fun _ => true)).2.2.1 rfl,
    (close_idempotent_amended ⟨"/tmp/i.sock", false, 4, -1, false, false, true, []⟩
      (fun _ => true) (fun _ => true)).1⟩

end UnixSock
